import Mathlib

/-!
Verification development for the security core of the Secure Academic
Student Portal (files `real-server/security.js`, `real-server/middleware.js`,
`real-server/routes.js`, `real-server/models.js`).

The JavaScript source is shallowly embedded: route handlers become pure
functions on explicit state, mongoose documents become Lean structures,
timestamps become natural numbers (milliseconds), and external library
primitives (bcrypt, AES, HMAC, the JWT library) are taken as parameters or
idealized functions, with the repository's own composition logic translated
faithfully.
-/

namespace Portal

/-! ### Access control matrix (`middleware.js`, `ACL_MATRIX` and `authorize`) -/

/-- Embedding of `ACL_MATRIX` from `middleware.js` lines 7–23 together with the
default `|| []` applied in `authorize`: roles and resources are the raw strings
of the source, and any role or resource absent from the matrix yields the empty
permission list. -/
def aclPermissions (role resource : String) : List String :=
  if role = "STUDENT" then
    if resource = "ASSIGNMENT" then ["CREATE", "READ"]
    else if resource = "GRADE" then ["READ"]
    else if resource = "AUDIT_LOG" then []
    else []
  else if role = "FACULTY" then
    if resource = "ASSIGNMENT" then ["READ", "UPDATE"]
    else if resource = "GRADE" then ["CREATE", "READ", "UPDATE"]
    else if resource = "AUDIT_LOG" then ["READ"]
    else []
  else if role = "ADMIN" then
    if resource = "ASSIGNMENT" then ["READ", "DELETE"]
    else if resource = "GRADE" then ["READ"]
    else if resource = "AUDIT_LOG" then ["READ", "DELETE"]
    else []
  else []

/-- Embedding of the decision made by the `authorize` middleware
(`middleware.js` lines 43–61): `permissions.includes(action)` where
`permissions = ACL_MATRIX[userRole]?.[resource] || []`. -/
def authorize (role resource action : String) : Bool :=
  (aclPermissions role resource).contains action

/-- Spec-side enumeration of the policy table of §4.5 of the design document,
written with the repository's concrete names (Submitter = STUDENT,
Reviewer = FACULTY, Auditor = ADMIN; Submission = ASSIGNMENT,
Audit-Log = AUDIT_LOG). -/
def specAllowedTriples : List (String × String × String) :=
  [("STUDENT", "ASSIGNMENT", "CREATE"), ("STUDENT", "ASSIGNMENT", "READ"),
   ("STUDENT", "GRADE", "READ"),
   ("FACULTY", "ASSIGNMENT", "READ"), ("FACULTY", "ASSIGNMENT", "UPDATE"),
   ("FACULTY", "GRADE", "CREATE"), ("FACULTY", "GRADE", "READ"),
   ("FACULTY", "GRADE", "UPDATE"),
   ("FACULTY", "AUDIT_LOG", "READ"),
   ("ADMIN", "ASSIGNMENT", "READ"), ("ADMIN", "ASSIGNMENT", "DELETE"),
   ("ADMIN", "GRADE", "READ"),
   ("ADMIN", "AUDIT_LOG", "READ"), ("ADMIN", "AUDIT_LOG", "DELETE")]

/-! ### OTP generation (`security.js`, `generateOTP`) -/

/-- Embedding of `generateOTP` (`security.js` lines 25–27):
`Math.floor(100000 + Math.random() * 900000)`. The call to `Math.random()`
is modelled as a rational `r / d` with `r < d`; since `100000` is an integer,
flooring the sum equals `100000 + ⌊r * 900000 / d⌋`, which is natural-number
division. -/
def generateOTP (r d : Nat) : Nat :=
  100000 + r * 900000 / d

/-! ### Password policy (`routes.js`, `validatePasswordNIST`, register and
password-change handlers) -/

/-- Character-class test for the regex `/[A-Z]/`. -/
def hasUpper (p : List Char) : Bool := p.any fun c => 'A' ≤ c && c ≤ 'Z'

/-- Character-class test for the regex `/[a-z]/`. -/
def hasLower (p : List Char) : Bool := p.any fun c => 'a' ≤ c && c ≤ 'z'

/-- Character-class test for the regex `/[0-9]/`. -/
def hasDigit (p : List Char) : Bool := p.any fun c => '0' ≤ c && c ≤ '9'

/-- Character-class test for the regex `/[!@#$%^&*]/`. -/
def hasSymbol (p : List Char) : Bool :=
  p.any fun c => c = '!' || c = '@' || c = '#' || c = '$' || c = '%' || c = '^' || c = '&' || c = '*'

/-- Embedding of `validatePasswordNIST` (`routes.js` lines 28–36): collects the
error messages in source order; the empty password is falsy in JavaScript so it
fails the length test. -/
def validatePasswordNIST (password : List Char) : List String :=
  (if password.length < 12 then ["At least 12 characters"] else []) ++
  (if hasUpper password then [] else ["At least 1 uppercase letter"]) ++
  (if hasLower password then [] else ["At least 1 lowercase letter"]) ++
  (if hasDigit password then [] else ["At least 1 number"]) ++
  (if hasSymbol password then [] else ["At least 1 special character (!@#$%^&*)"])

/-- Outcomes of the registration handler, in the order its guards appear. -/
inductive RegisterResult where
  | missingFields
  | policyViolation (requirements : List String)
  | userExists
  | created
deriving DecidableEq

/-- Embedding of the validation sequence of `POST /auth/register`
(`routes.js` lines 38–103), with the database lookup for an existing user
passed in as a boolean. -/
def registerRoute (username password role : List Char) (existingUser : Bool) :
    RegisterResult :=
  if username = [] ∨ password = [] ∨ role = [] then .missingFields
  else if validatePasswordNIST password ≠ [] then
    .policyViolation (validatePasswordNIST password)
  else if existingUser then .userExists
  else .created

/-- Outcomes of the password-change handler, in the order its guards appear. -/
inductive ChangePwResult where
  | missingFields
  | tooShort
  | userNotFound
  | wrongCurrent
  | success
deriving DecidableEq

/-- Embedding of the validation sequence of `PUT /profile/password`
(`routes.js` lines 1032–1074): only `newPassword.length < 8` is checked, never
`validatePasswordNIST`. The results of the database lookup and of the bcrypt
comparison are passed in as booleans. -/
def changePasswordRoute (currentPassword newPassword : List Char)
    (userFound currentOk : Bool) : ChangePwResult :=
  if currentPassword = [] ∨ newPassword = [] then .missingFields
  else if newPassword.length < 8 then .tooShort
  else if ¬userFound then .userNotFound
  else if ¬currentOk then .wrongCurrent
  else .success

/-! ### Account lockout (`routes.js`, `POST /auth/login`) -/

/-- Constant `MAX_LOGIN_ATTEMPTS` from `routes.js` line 19. -/
def MAX_LOGIN_ATTEMPTS : Nat := 3

/-- Constant `LOCK_TIME` from `routes.js` line 20: 15 minutes in milliseconds. -/
def LOCK_TIME : Nat := 15 * 60 * 1000

/-- Lockout-relevant fields of a `User` document (`models.js`). -/
structure UserAuth where
  failedLoginAttempts : Nat
  lockedUntil : Option Nat
deriving DecidableEq

/-- Outcomes of the login handler that are reachable once the user record has
been found. -/
inductive LoginOutcome where
  | accountLocked
  | lockedNow
  | invalidCredentials (attemptsRemaining : Nat)
  | otpIssued
deriving DecidableEq

/-- Result of one login attempt: the HTTP-level outcome, the user record after
the handler's `user.save()` calls, and whether `verifyPassword` (bcrypt) was
invoked on this attempt. -/
structure LoginResult where
  outcome : LoginOutcome
  state : UserAuth
  verifierCalled : Bool
deriving DecidableEq

/-- Embedding of the body of `POST /auth/login` (`routes.js` lines 106–203)
after the user record is found: the lock check `user.lockedUntil &&
user.lockedUntil > new Date()` runs before `verifyPassword`; a failed
comparison increments the counter and, at `MAX_LOGIN_ATTEMPTS`, sets
`lockedUntil = now + LOCK_TIME`; a successful comparison resets both fields
and issues an OTP challenge. The bcrypt result is passed in as
`passwordCorrect`. -/
def loginStep (u : UserAuth) (now : Nat) (passwordCorrect : Bool) : LoginResult :=
  match u.lockedUntil with
  | some t =>
    if now < t then ⟨.accountLocked, u, false⟩
    else loginAfterLockCheck u now passwordCorrect
  | none => loginAfterLockCheck u now passwordCorrect
where
  loginAfterLockCheck (u : UserAuth) (now : Nat) (passwordCorrect : Bool) :
      LoginResult :=
    if passwordCorrect then
      ⟨.otpIssued, ⟨0, none⟩, true⟩
    else
      let attempts := u.failedLoginAttempts + 1
      if MAX_LOGIN_ATTEMPTS ≤ attempts then
        ⟨.lockedNow, ⟨attempts, some (now + LOCK_TIME)⟩, true⟩
      else
        ⟨.invalidCredentials (MAX_LOGIN_ATTEMPTS - attempts),
         ⟨attempts, u.lockedUntil⟩, true⟩

/-! ### OTP verification (`routes.js`, `POST /auth/verify-otp`;
`models.js`, `otpSchema`) -/

/-- Fields of an `OTP` document (`models.js` lines 1127–1135) used by the
verification route. -/
structure OTPRec where
  userId : Nat
  otpCode : List Char
  expiresAt : Nat
  verified : Bool
deriving DecidableEq

/-- Embedding of the query `OTP.findOne({ userId, otpCode })`: the first stored
record matching the account and the code, with no condition on `verified`. -/
def findOtp (otps : List OTPRec) (userId : Nat) (code : List Char) :
    Option OTPRec :=
  otps.find? fun o => o.userId = userId ∧ o.otpCode = code

/-- Embedding of `otp.verified = true; await otp.save()`: sets the flag on the
one document that `findOtp` returned. -/
def markVerified : List OTPRec → Nat → List Char → List OTPRec
  | [], _, _ => []
  | o :: rest, userId, code =>
    if o.userId = userId ∧ o.otpCode = code then
      { o with verified := true } :: rest
    else
      o :: markVerified rest userId code

/-- Outcomes of the OTP verification handler, in the order its guards appear. -/
inductive OtpOutcome where
  | missingField
  | invalidOtp
  | otpExpired
  | userNotFound
  | loginSuccess
deriving DecidableEq

/-- Embedding of `POST /auth/verify-otp` (`routes.js` lines 206–263): look up
by `(userId, otpCode)`, reject when absent, reject when `now > expiresAt`,
reject when the user record is missing, otherwise mark the record verified and
mint a token. `hasFields` stands for the `!userId || !otpCode` guard and
`userExists` for the `User.findOne` result. -/
def verifyOtpRoute (otps : List OTPRec) (userExists : Bool) (userId : Nat)
    (code : List Char) (now : Nat) (hasFields : Bool) :
    OtpOutcome × List OTPRec :=
  if ¬hasFields then (.missingField, otps)
  else
    match findOtp otps userId code with
    | none => (.invalidOtp, otps)
    | some o =>
      if o.expiresAt < now then (.otpExpired, otps)
      else if ¬userExists then (.userNotFound, otps)
      else (.loginSuccess, markVerified otps userId code)

/-! ### Content protector (`security.js`, `encryptData`, `decryptData`,
`safeDecrypt`) -/

/-- Lowercase hex digit for a value below 16, as produced by
`Buffer.toString('hex')`. -/
def hexDigit (n : Nat) : Char :=
  if n < 10 then Char.ofNat ('0'.toNat + n)
  else Char.ofNat ('a'.toNat + (n - 10))

/-- Hex encoding of a byte list, two lowercase digits per byte
(`Buffer.toString('hex')`). -/
def bytesToHex : List Nat → List Char
  | [] => []
  | b :: rest => hexDigit (b / 16) :: hexDigit (b % 16) :: bytesToHex rest

/-- Numeric value of one hex digit, accepting both cases
(`Buffer.from(str, 'hex')`). -/
def hexVal (c : Char) : Option Nat :=
  if '0' ≤ c ∧ c ≤ '9' then some (c.toNat - '0'.toNat)
  else if 'a' ≤ c ∧ c ≤ 'f' then some (c.toNat - 'a'.toNat + 10)
  else if 'A' ≤ c ∧ c ≤ 'F' then some (c.toNat - 'A'.toNat + 10)
  else none

/-- Hex decoding of a character list into bytes; fails on an odd length or a
non-hex character. -/
def hexToBytes : List Char → Option (List Nat)
  | [] => some []
  | [_] => none
  | c1 :: c2 :: rest => do
    let h ← hexVal c1
    let l ← hexVal c2
    let bs ← hexToBytes rest
    pure ((h * 16 + l) :: bs)

/-- Embedding of `String.prototype.split(':')`: the list of colon-free chunks,
in order, one more chunk than there are colons. -/
def splitColon : List Char → List (List Char)
  | [] => [[]]
  | c :: rest =>
    if c = ':' then [] :: splitColon rest
    else
      match splitColon rest with
      | [] => [[c]]
      | chunk :: more => (c :: chunk) :: more

/-- Embedding of `encryptData` (`security.js` lines 30–47): a 16-byte random
initialization value `iv` and the AES-256-CBC primitive `enc` (an external
library call) are parameters; the function's own work is
`iv.toString('hex') + ':' + encrypted`. -/
def encryptData (enc : List Nat → List Nat → List Nat → List Nat)
    (key iv data : List Nat) : List Char :=
  bytesToHex iv ++ ':' :: bytesToHex (enc key iv data)

/-- Embedding of `decryptData` (`security.js` lines 50–70): split on `':'`,
hex-decode `parts[0]` into the initialization value and `parts[1]` into the
ciphertext, then run the AES-256-CBC primitive `dec`, which may itself fail
(bad padding); every failure is caught and surfaces as `none`
(`throw new Error('Decryption failed')`). -/
def decryptData (dec : List Nat → List Nat → List Nat → Option (List Nat))
    (key : List Nat) (encryptedData : List Char) : Option (List Nat) := do
  let parts := splitColon encryptedData
  let p0 ← parts.get? 0
  let p1 ← parts.get? 1
  let iv ← hexToBytes p0
  let ct ← hexToBytes p1
  dec key iv ct

/-- Character class of the regex `/^[a-f0-9]+:[a-f0-9]+$/i`. -/
def isHexChar (c : Char) : Bool :=
  ('a' ≤ c && c ≤ 'f') || ('A' ≤ c && c ≤ 'F') || ('0' ≤ c && c ≤ '9')

/-- Test `data.includes(':') && /^[a-f0-9]+:[a-f0-9]+$/i.test(data)` from
`safeDecrypt`: exactly one colon, with a nonempty run of hex characters on
each side. -/
def looksEncrypted (data : List Char) : Bool :=
  match splitColon data with
  | [a, b] => a ≠ [] && b ≠ [] && a.all isHexChar && b.all isHexChar
  | _ => false

/-- Embedding of `safeDecrypt` (`security.js` lines 72–86) over an arbitrary
decryption function `d` standing for `decryptData`: `null` input gives `null`;
input matching the encrypted format is decrypted, but a decryption failure is
caught and the input is returned unchanged; input not matching the format is
returned unchanged without attempting decryption. -/
def safeDecrypt (d : List Char → Option (List Char)) (data : List Char) :
    Option (List Char) :=
  if data = [] then none
  else if looksEncrypted data then
    match d data with
    | some r => some r
    | none => some data
  else some data

/-! ### Signatures (`security.js`, `generateSignature`, `verifySignature`) -/

/-- Embedding of `crypto.timingSafeEqual`: throws (modelled as `Except.error`)
when the buffers differ in length, otherwise returns the boolean comparison. -/
def timingSafeEqual (a b : List Nat) : Except Unit Bool :=
  if a.length ≠ b.length then .error ()
  else .ok (a = b)

/-- Embedding of `generateSignature` (`security.js` lines 89–94) over the
HMAC-SHA256 hex-digest primitive `hmacHex` (an external library call, keyed
with the server secret), whose hex digest is 64 characters long. -/
def generateSignature (hmacHex : List Nat → List Nat) (data : List Nat) :
    List Nat :=
  hmacHex data

/-- Embedding of `verifySignature` (`security.js` lines 97–103): recompute the
expected signature and compare with `crypto.timingSafeEqual`, whose exception
is not caught by the function. -/
def verifySignature (hmacHex : List Nat → List Nat) (data signature : List Nat) :
    Except Unit Bool :=
  timingSafeEqual signature (generateSignature hmacHex data)

/-! ### Session tokens (`security.js`, `generateJWT`, `verifyJWT`) -/

/-- Claims carried by a session token (`generateJWT`, `security.js`
lines 106–112): user identifier, username, role, plus the expiry attached by
the library's `expiresIn` option. -/
structure Claims where
  userId : Nat
  username : List Char
  role : List Char
  exp : Nat
deriving DecidableEq

/-- Modelled from the spec: the `jsonwebtoken` library is not under `src/`, so
its HMAC-SHA256 signature over the encoded claims is idealized as an injective
keyed function, per §4.3 (a signature computed with a server-held secret over
the claims and an expiry). -/
def macSign (secret : Nat) (c : Claims) : Nat × Claims := (secret, c)

/-- Token as presented to `verify`: claims plus the signature field, which a
tamperer may set independently of the claims. -/
structure Token where
  claims : Claims
  sig : Nat × Claims
deriving DecidableEq

/-- Error taxonomy of the library's `verify`: `JsonWebTokenError` for a bad
signature or malformed structure, `TokenExpiredError` past expiry. -/
inductive JwtError where
  | tokenInvalid
  | tokenExpired
deriving DecidableEq

/-- Modelled from the spec: `jwt.verify(token, JWT_SECRET)` as implemented by
the `jsonwebtoken` library (not under `src/`): check the signature against the
server secret first, then compare the expiry claim with the current time; no
other state is consulted. -/
def jwtVerify (secret : Nat) (now : Nat) (t : Token) : Except JwtError Claims :=
  if t.sig = macSign secret t.claims then
    if t.claims.exp ≤ now then .error .tokenExpired
    else .ok t.claims
  else .error .tokenInvalid

/-- Embedding of the wrapper `verifyJWT` (`security.js` lines 115–121): any
library error is caught and collapsed to `null`. -/
def verifyJWT (secret : Nat) (now : Nat) (t : Token) : Option Claims :=
  (jwtVerify secret now t).toOption

/-! ### Audit emission on denial (`middleware.js`, `authorize`;
`routes.js`, `POST /submissions`) -/

/-- Embedding of the `authorize` middleware's observable effect
(`middleware.js` lines 43–61): the request proceeds exactly when the ACL
permits, and a denial writes one `UNAUTHORIZED_ACCESS` audit record before the
403 response. The second component counts audit records written by this
decision. -/
def authorizeMiddleware (role resource action : String) : Bool × Nat :=
  if authorize role resource action then (true, 0) else (false, 1)

/-- Outcomes of the `POST /submissions` handler, in the order its guards
appear. -/
inductive SubmitOutcome where
  | forbidden
  | badRequest
  | taskNotFound
  | alreadySubmitted
  | created
deriving DecidableEq

/-- Embedding of `POST /submissions` (`routes.js` lines 728–794) after
`authenticate`: the handler's own role check returns 403 for a non-student
with no call to `logAuditEvent`; only the successful save logs a record. The
second component counts audit records written by the handler. -/
def submissionsRoute (role : String) (hasFields taskExists alreadySubmitted : Bool) :
    SubmitOutcome × Nat :=
  if role ≠ "STUDENT" then (.forbidden, 0)
  else if ¬hasFields then (.badRequest, 0)
  else if ¬taskExists then (.taskNotFound, 0)
  else if alreadySubmitted then (.alreadySubmitted, 0)
  else (.created, 1)

/-! ## Claim theorems -/

/-- Claim C3: `authorize(role, resourceType, action)` returns `true` exactly
when the triple is an entry of the static permission matrix, with default-deny
for every role or resource type absent from the matrix; in particular the
Submitter (STUDENT) cannot delete a Submission (ASSIGNMENT), the Reviewer
(FACULTY) can create a Grade, and the Auditor (ADMIN) can read the AuditLog. -/
theorem authorize_matches_matrix :
    (∀ role resource action : String,
      authorize role resource action = true ↔
        (role, resource, action) ∈ specAllowedTriples) ∧
    authorize "STUDENT" "ASSIGNMENT" "DELETE" = false ∧
    authorize "FACULTY" "GRADE" "CREATE" = true ∧
    authorize "ADMIN" "AUDIT_LOG" "READ" = true ∧
    (∀ role resource action : String,
      role ≠ "STUDENT" → role ≠ "FACULTY" → role ≠ "ADMIN" →
        authorize role resource action = false) ∧
    (∀ role resource action : String,
      resource ≠ "ASSIGNMENT" → resource ≠ "GRADE" → resource ≠ "AUDIT_LOG" →
        authorize role resource action = false) := by
  refine ⟨?_, by decide, by decide, by decide, ?_, ?_⟩
  · intro role resource action
    simp only [authorize, aclPermissions, specAllowedTriples]
    split_ifs with h1 h2 h3 h4 h5 h6 h7 h8 h9 h10 h11 h12 <;>
      simp_all [Prod.ext_iff]
  · intro role resource action h1 h2 h3
    simp [authorize, aclPermissions, h1, h2, h3]
  · intro role resource action h1 h2 h3
    simp only [authorize, aclPermissions]
    split_ifs <;> simp_all

/-- Witness for C3 at concrete inputs: an unknown role is denied, and the
matrix equivalence evaluated at a permitted entry. -/
theorem authorize_matches_matrix_witness :
    authorize "GUEST" "ASSIGNMENT" "READ" = false ∧
    (authorize "STUDENT" "GRADE" "READ" = true ↔
      ("STUDENT", "GRADE", "READ") ∈ specAllowedTriples) ∧
    authorize "STUDENT" "PROFILE" "READ" = false :=
  ⟨authorize_matches_matrix.2.2.2.2.1 "GUEST" "ASSIGNMENT" "READ"
      (by decide) (by decide) (by decide),
   authorize_matches_matrix.1 "STUDENT" "GRADE" "READ",
   authorize_matches_matrix.2.2.2.2.2 "STUDENT" "PROFILE" "READ"
      (by decide) (by decide) (by decide)⟩

/-- Claim C9, counterexample: the claim says every value of the space
000000–999999 is a possible output, but no choice of the random source can
make `generateOTP` produce 99999 (or anything below 100000), since the
expression is `100000 + ⌊random * 900000⌋`. -/
theorem generateOTP_low_values_unreachable :
    ¬ ∃ r d : Nat, r < d ∧ generateOTP r d = 99999 := by
  rintro ⟨r, d, -, h⟩
  have hle : 100000 ≤ generateOTP r d := Nat.le_add_right 100000 _
  omega

/-- Claim C9, amended: every generated OTP code lies in 100000–999999 (hence
is exactly six decimal digits with no leading zero), every value of that
subrange is a possible output, and the generator takes no account data as
input. -/
theorem generateOTP_range_and_onto :
    (∀ r d : Nat, r < d →
      100000 ≤ generateOTP r d ∧ generateOTP r d ≤ 999999) ∧
    (∀ k : Nat, 100000 ≤ k → k ≤ 999999 →
      ∃ r d : Nat, r < d ∧ generateOTP r d = k) := by
  constructor
  · intro r d hrd
    have h2 : r * 900000 < d * 900000 :=
      mul_lt_mul_of_pos_right hrd (by norm_num)
    have hq : r * 900000 / d < 900000 := Nat.div_lt_of_lt_mul h2
    unfold generateOTP
    generalize r * 900000 / d = q at hq ⊢
    omega
  · intro k hk1 hk2
    refine ⟨k - 100000, 900000, by omega, ?_⟩
    unfold generateOTP
    rw [Nat.mul_div_cancel _ (by norm_num : (0 : Nat) < 900000)]
    omega

/-- Witness for the amended C9 at concrete inputs. -/
theorem generateOTP_range_and_onto_witness :
    (100000 ≤ generateOTP 5 10 ∧ generateOTP 5 10 ≤ 999999) ∧
    ∃ r d : Nat, r < d ∧ generateOTP r d = 123456 :=
  ⟨generateOTP_range_and_onto.1 5 10 (by decide),
   generateOTP_range_and_onto.2 123456 (by norm_num) (by norm_num)⟩

/-- Claim C6, counterexample: the password-change handler accepts the new
password "aaaaaaaa" (it only checks `length < 8`), although the NIST policy
used at registration rejects it, so the policy is not enforced at
password-change time. -/
theorem changePassword_skips_policy :
    changePasswordRoute ['X'] ['a', 'a', 'a', 'a', 'a', 'a', 'a', 'a']
      true true = .success ∧
    validatePasswordNIST ['a', 'a', 'a', 'a', 'a', 'a', 'a', 'a'] ≠ [] := by
  decide

/-- Claim C6, amended: the minimum password policy is enforced before hashing
at registration time (a policy-violating password is rejected with the policy
errors, and a created account implies an empty error list), while at
password-change time only a minimum length of 8 is enforced. -/
theorem password_policy_enforcement :
    (∀ u p r : List Char, ∀ e : Bool,
      registerRoute u p r e = .created → validatePasswordNIST p = []) ∧
    (∀ u p r : List Char, ∀ e : Bool,
      u ≠ [] → p ≠ [] → r ≠ [] → validatePasswordNIST p ≠ [] →
        registerRoute u p r e = .policyViolation (validatePasswordNIST p)) ∧
    (∀ cur new : List Char, ∀ uf cok : Bool,
      changePasswordRoute cur new uf cok = .success ↔
        cur ≠ [] ∧ new ≠ [] ∧ 8 ≤ new.length ∧ uf = true ∧ cok = true) := by
  refine ⟨?_, ?_, ?_⟩
  · intro u p r e h
    by_contra hp
    simp only [registerRoute] at h
    split_ifs at h
  · intro u p r e hu hp hr hpol
    simp [registerRoute, hu, hp, hr, hpol]
  · intro cur new uf cok
    constructor
    · intro h
      simp only [changePasswordRoute] at h
      split_ifs at h with h1 h2 h3 h4
      simp_all
    · rintro ⟨h1, h2, h3, h4, h5⟩
      subst h4
      subst h5
      simp [changePasswordRoute, h1, h2]
      omega

/-- Witness for the amended C6 at concrete inputs. -/
theorem password_policy_enforcement_witness :
    registerRoute ['u'] ['a', 'a', 'a', 'a', 'a', 'a', 'a', 'a'] ['S'] false =
      .policyViolation
        (validatePasswordNIST ['a', 'a', 'a', 'a', 'a', 'a', 'a', 'a']) ∧
    (changePasswordRoute ['x'] ['b', 'b', 'b', 'b', 'b', 'b', 'b', 'b']
        true true = .success ↔
      (['x'] : List Char) ≠ [] ∧ (['b', 'b', 'b', 'b', 'b', 'b', 'b', 'b'] : List Char) ≠ [] ∧
        8 ≤ (['b', 'b', 'b', 'b', 'b', 'b', 'b', 'b'] : List Char).length ∧
        true = true ∧ true = true) :=
  ⟨password_policy_enforcement.2.1 ['u'] ['a', 'a', 'a', 'a', 'a', 'a', 'a', 'a']
      ['S'] false (by decide) (by decide) (by decide) (by decide),
   password_policy_enforcement.2.2 ['x'] ['b', 'b', 'b', 'b', 'b', 'b', 'b', 'b']
      true true⟩

/-- Claim C8, counterexample: the `POST /submissions` handler returns a
403-forbidden outcome for a non-student caller while writing zero audit
records, so not every forbidden outcome grows the audit log by one record. -/
theorem submissions_forbidden_without_audit :
    (submissionsRoute "FACULTY" true true false).1 = .forbidden ∧
    (submissionsRoute "FACULTY" true true false).2 = 0 := by
  decide

/-- Claim C8, amended: denials decided by the `authorize` middleware write
exactly one audit record, but the ad-hoc role checks inside route handlers
(for example `POST /submissions` for a non-student) return a forbidden outcome
with no audit record at all. -/
theorem denial_audit_accounting :
    (∀ role resource action : String,
      authorize role resource action = false →
        authorizeMiddleware role resource action = (false, 1)) ∧
    (∀ role : String, ∀ h t a : Bool,
      role ≠ "STUDENT" → submissionsRoute role h t a = (.forbidden, 0)) := by
  constructor
  · intro role resource action hdeny
    simp [authorizeMiddleware, hdeny]
  · intro role h t a hrole
    simp [submissionsRoute, hrole]

/-- Witness for the amended C8 at concrete inputs. -/
theorem denial_audit_accounting_witness :
    authorizeMiddleware "STUDENT" "AUDIT_LOG" "READ" = (false, 1) ∧
    submissionsRoute "ADMIN" true true false = (.forbidden, 0) :=
  ⟨denial_audit_accounting.1 "STUDENT" "AUDIT_LOG" "READ" (by decide),
   denial_audit_accounting.2 "ADMIN" true true false (by decide)⟩

/-- Claim C1: on the account of user 1 holding one challenge with code 123456
expiring at time 100, verification at time 50 succeeds and sets the consumed
flag, yet a second verification with the same code at time 60 succeeds again:
the route queries only `(userId, otpCode)` and never checks the `verified`
flag, so a consumed challenge is replayable, contrary to the single-use
invariant. -/
theorem otp_replay_accepted :
    (verifyOtpRoute [⟨1, ['1', '2', '3', '4', '5', '6'], 100, false⟩]
      true 1 ['1', '2', '3', '4', '5', '6'] 50 true).1 = .loginSuccess ∧
    (verifyOtpRoute [⟨1, ['1', '2', '3', '4', '5', '6'], 100, false⟩]
      true 1 ['1', '2', '3', '4', '5', '6'] 50 true).2 =
      [⟨1, ['1', '2', '3', '4', '5', '6'], 100, true⟩] ∧
    (verifyOtpRoute [⟨1, ['1', '2', '3', '4', '5', '6'], 100, true⟩]
      true 1 ['1', '2', '3', '4', '5', '6'] 60 true).1 = .loginSuccess := by
  decide

/-- Claim C2: `safeDecrypt` silently returns undecryptable input as if it were
plaintext: input not matching the hex-colon-hex shape is returned unchanged
without attempting decryption, and input matching the shape whose decryption
fails (here `decryptData` with an AES primitive that rejects the ciphertext)
is also returned unchanged, instead of failing with a decryption error. -/
theorem safeDecrypt_returns_undecryptable_input :
    safeDecrypt (fun s => (decryptData (fun _ _ _ => none) [] s).map (fun _ => []))
      ['h', 'e', 'l', 'l', 'o'] = some ['h', 'e', 'l', 'l', 'o'] ∧
    safeDecrypt (fun s => (decryptData (fun _ _ _ => none) [] s).map (fun _ => []))
      ['a', 'b', ':', 'c', 'd'] = some ['a', 'b', ':', 'c', 'd'] := by
  decide

/-- Claim C4: starting from a fresh record, three consecutive failed password
verifications leave the account locked until the third failure's time plus the
15-minute `LOCK_TIME`; while that deadline has not passed, every login attempt
— whatever the password comparison would have said — fails with the locked
outcome, leaves the record unchanged, and never invokes the password verifier;
once the deadline has passed, a correct password logs in and resets the
counter and the lock. -/
theorem lockout_state_machine (t1 t2 t3 now later : Nat) (pc : Bool)
    (hnow : now < t3 + LOCK_TIME) (hlater : t3 + LOCK_TIME ≤ later) :
    (loginStep (loginStep (loginStep ⟨0, none⟩ t1 false).state t2 false).state
        t3 false).state = ⟨3, some (t3 + LOCK_TIME)⟩ ∧
    (loginStep (loginStep (loginStep ⟨0, none⟩ t1 false).state t2 false).state
        t3 false).outcome = .lockedNow ∧
    loginStep ⟨3, some (t3 + LOCK_TIME)⟩ now pc =
      ⟨.accountLocked, ⟨3, some (t3 + LOCK_TIME)⟩, false⟩ ∧
    (loginStep ⟨3, some (t3 + LOCK_TIME)⟩ later true).outcome = .otpIssued ∧
    (loginStep ⟨3, some (t3 + LOCK_TIME)⟩ later true).state = ⟨0, none⟩ := by
  refine ⟨rfl, rfl, ?_, ?_, ?_⟩
  · simp [loginStep, hnow]
  · simp [loginStep, loginStep.loginAfterLockCheck, Nat.not_lt.mpr hlater]
  · simp [loginStep, loginStep.loginAfterLockCheck, Nat.not_lt.mpr hlater]

/-- Witness for C4 with concrete times: failures at 10, 20, 30, a blocked
attempt at 31, and a successful login at 30 + `LOCK_TIME`. -/
theorem lockout_state_machine_witness :
    (loginStep (loginStep (loginStep ⟨0, none⟩ 10 false).state 20 false).state
        30 false).state = ⟨3, some (30 + LOCK_TIME)⟩ ∧
    (loginStep (loginStep (loginStep ⟨0, none⟩ 10 false).state 20 false).state
        30 false).outcome = .lockedNow ∧
    loginStep ⟨3, some (30 + LOCK_TIME)⟩ 31 true =
      ⟨.accountLocked, ⟨3, some (30 + LOCK_TIME)⟩, false⟩ ∧
    (loginStep ⟨3, some (30 + LOCK_TIME)⟩ (30 + LOCK_TIME) true).outcome =
      .otpIssued ∧
    (loginStep ⟨3, some (30 + LOCK_TIME)⟩ (30 + LOCK_TIME) true).state =
      ⟨0, none⟩ :=
  lockout_state_machine 10 20 30 31 (30 + LOCK_TIME) true
    (by norm_num [LOCK_TIME]) (le_refl _)

/-- Claim C5: session-token verification is a pure function of the token, the
server secret and the clock; a token whose signature is valid but whose expiry
has passed is rejected (the library reports expiry, the wrapper returns
`none`), and a token whose role claim was tampered with while keeping the
original signature is rejected as invalid at every time, regardless of
expiry. -/
theorem jwt_verify_rejections (secret now m : Nat) (c : Claims)
    (newRole : List Char) (hexp : c.exp ≤ now) (hrole : newRole ≠ c.role) :
    jwtVerify secret now ⟨c, macSign secret c⟩ = .error .tokenExpired ∧
    verifyJWT secret now ⟨c, macSign secret c⟩ = none ∧
    jwtVerify secret m ⟨{ c with role := newRole }, macSign secret c⟩ =
      .error .tokenInvalid ∧
    verifyJWT secret m ⟨{ c with role := newRole }, macSign secret c⟩ =
      none := by
  have hne : macSign secret c ≠ macSign secret { c with role := newRole } := by
    intro h
    have h2 : c = { c with role := newRole } := by
      simpa [macSign, Prod.ext_iff] using h
    exact hrole (congrArg Claims.role h2).symm
  refine ⟨?_, ?_, ?_, ?_⟩
  · simp [jwtVerify, hexp]
  · simp [verifyJWT, jwtVerify, hexp, Except.toOption]
  · simp [jwtVerify, hne]
  · simp [verifyJWT, jwtVerify, hne, Except.toOption]

/-- Witness for C5 at a concrete secret, claims, clock and tampered role. -/
theorem jwt_verify_rejections_witness :
    jwtVerify 7 10 ⟨⟨1, ['u'], ['S'], 10⟩, macSign 7 ⟨1, ['u'], ['S'], 10⟩⟩ =
      .error .tokenExpired ∧
    verifyJWT 7 10 ⟨⟨1, ['u'], ['S'], 10⟩, macSign 7 ⟨1, ['u'], ['S'], 10⟩⟩ =
      none ∧
    jwtVerify 7 0 ⟨{ (⟨1, ['u'], ['S'], 10⟩ : Claims) with role := ['A'] },
        macSign 7 ⟨1, ['u'], ['S'], 10⟩⟩ = .error .tokenInvalid ∧
    verifyJWT 7 0 ⟨{ (⟨1, ['u'], ['S'], 10⟩ : Claims) with role := ['A'] },
        macSign 7 ⟨1, ['u'], ['S'], 10⟩⟩ = none :=
  jwt_verify_rejections 7 10 0 ⟨1, ['u'], ['S'], 10⟩ ['A']
    (le_refl _) (by decide)

/-- Claim C10: assuming the HMAC-SHA256 hex digest is 64 characters long (a
property of the external primitive), `verifySignature` returns a boolean
exactly when the provided signature has byte length 64, and raises the
`timingSafeEqual` length exception for a signature of any other length, so
the function is not total over arbitrary signature strings. -/
theorem verifySignature_length_totality (hmacHex : List Nat → List Nat)
    (data sig : List Nat) (hlen : (hmacHex data).length = 64) :
    (sig.length = 64 →
      verifySignature hmacHex data sig =
        .ok (decide (sig = generateSignature hmacHex data))) ∧
    (sig.length ≠ 64 → verifySignature hmacHex data sig = .error ()) := by
  constructor
  · intro h
    unfold verifySignature timingSafeEqual
    rw [if_neg]
    simp [generateSignature, hlen, h]
  · intro h
    unfold verifySignature timingSafeEqual
    rw [if_pos]
    simp [generateSignature, hlen, h]

/-- Witness for C10: with a concrete 64-byte digest, a 64-byte signature gets
a boolean verdict and a 3-byte signature gets the exception. -/
theorem verifySignature_length_totality_witness :
    verifySignature (fun _ => List.replicate 64 0) [] (List.replicate 64 0) =
      .ok (decide (List.replicate 64 0 =
        generateSignature (fun _ => List.replicate 64 0) [])) ∧
    verifySignature (fun _ => List.replicate 64 0) [] [1, 2, 3] = .error () :=
  ⟨(verifySignature_length_totality (fun _ => List.replicate 64 0) []
      (List.replicate 64 0) (by simp)).1 (by simp),
   (verifySignature_length_totality (fun _ => List.replicate 64 0) []
      [1, 2, 3] (by simp)).2 (by simp)⟩

/-! ### Lemmas for the encryption round-trip -/

/-- Inversion of the hex digit encoding on values below 16. -/
theorem hexVal_hexDigit (n : Nat) (h : n < 16) : hexVal (hexDigit n) = some n := by
  interval_cases n <;> decide

/-- Hex digits are never the colon separator. -/
theorem hexDigit_ne_colon (n : Nat) (h : n < 16) : hexDigit n ≠ ':' := by
  interval_cases n <;> decide

/-- Hex decoding inverts hex encoding on byte lists. -/
theorem hexToBytes_bytesToHex (bs : List Nat) (h : ∀ b ∈ bs, b < 256) :
    hexToBytes (bytesToHex bs) = some bs := by
  induction bs with
  | nil => rfl
  | cons b rest ih =>
    have hb : b < 256 := h b (List.mem_cons_self _ _)
    have hrest : ∀ x ∈ rest, x < 256 := fun x hx => h x (List.mem_cons_of_mem _ hx)
    have h1 : b / 16 < 16 := by omega
    have h2 : b % 16 < 16 := Nat.mod_lt _ (by norm_num)
    simp [bytesToHex, hexToBytes, hexVal_hexDigit _ h1, hexVal_hexDigit _ h2,
      ih hrest]
    omega

/-- Hex encodings of byte lists contain no colon. -/
theorem bytesToHex_no_colon (bs : List Nat) (h : ∀ x ∈ bs, x < 256) :
    ∀ c ∈ bytesToHex bs, c ≠ ':' := by
  induction bs with
  | nil => simp [bytesToHex]
  | cons b rest ih =>
    have hb : b < 256 := h b (List.mem_cons_self _ _)
    have hrest : ∀ x ∈ rest, x < 256 := fun x hx => h x (List.mem_cons_of_mem _ hx)
    intro c hc
    simp only [bytesToHex, List.mem_cons] at hc
    rcases hc with h1 | h1 | h1
    · exact h1 ▸ hexDigit_ne_colon _ (by omega)
    · exact h1 ▸ hexDigit_ne_colon _ (Nat.mod_lt _ (by norm_num))
    · exact ih hrest c h1

/-- Splitting a colon-free list on the colon yields the single chunk. -/
theorem splitColon_no_colon (l : List Char) (h : ∀ c ∈ l, c ≠ ':') :
    splitColon l = [l] := by
  induction l with
  | nil => rfl
  | cons c rest ih =>
    have hc : c ≠ ':' := h c (List.mem_cons_self _ _)
    have hrest : ∀ x ∈ rest, x ≠ ':' := fun x hx => h x (List.mem_cons_of_mem _ hx)
    simp [splitColon, hc, ih hrest]

/-- Splitting a list built from two colon-free sides around one colon yields
exactly the two sides. -/
theorem splitColon_append (a b : List Char) (ha : ∀ c ∈ a, c ≠ ':')
    (hb : ∀ c ∈ b, c ≠ ':') :
    splitColon (a ++ ':' :: b) = [a, b] := by
  induction a with
  | nil => simp [splitColon, splitColon_no_colon b hb]
  | cons c rest ih =>
    have hc : c ≠ ':' := ha c (List.mem_cons_self _ _)
    have hrest : ∀ x ∈ rest, x ≠ ':' := fun x hx => ha x (List.mem_cons_of_mem _ hx)
    simp [splitColon, hc, ih hrest]

/-- Claim C7: whenever the AES-256-CBC primitive pair inverts on the message
(the library guarantee), the full encryption format round-trips byte for
byte: `decryptData` applied to `encryptData` of a plaintext recovers exactly
that plaintext, through the hex encoding of the initialization value and
ciphertext and the colon-separated blob layout. -/
theorem encrypt_decrypt_roundtrip
    (enc : List Nat → List Nat → List Nat → List Nat)
    (dec : List Nat → List Nat → List Nat → Option (List Nat))
    (key iv m : List Nat)
    (hiv : ∀ b ∈ iv, b < 256) (hct : ∀ b ∈ enc key iv m, b < 256)
    (hinv : dec key iv (enc key iv m) = some m) :
    decryptData dec key (encryptData enc key iv m) = some m := by
  unfold encryptData decryptData
  rw [splitColon_append _ _ (bytesToHex_no_colon iv hiv)
    (bytesToHex_no_colon _ hct)]
  simp [hexToBytes_bytesToHex iv hiv, hexToBytes_bytesToHex _ hct, hinv]

/-- Witness for C7 at a concrete message and a concrete inverting cipher
pair. -/
theorem encrypt_decrypt_roundtrip_witness :
    decryptData (fun _ _ c => some c) []
      (encryptData (fun _ _ d => d) [] [0, 1] [104, 105]) = some [104, 105] :=
  encrypt_decrypt_roundtrip (fun _ _ d => d) (fun _ _ c => some c) [] [0, 1]
    [104, 105] (by decide) (by decide) (by decide)

end Portal
